import Mathlib

/-!
Verification of the CodingUsage repository core: the Antigravity quota-blob
parser (`DatabaseReader` in the generic wire-format variant) and the
per-provider refresh state machine (`CursorProvider`).

Buffers are modelled as `List Nat` of byte values; JavaScript buffer reads at
an out-of-range or negative index behave as the byte 0 in bitwise contexts
(`undefined` coerces to 0 under `ToInt32`), which `byteAt` reproduces.
JavaScript bitwise operators work on 32-bit integers; varint accumulation
keeps the unsigned 32-bit bit pattern and `asInt32` reinterprets it as the
signed value at the use sites where the number is compared or added.
`Date` values are modelled as epoch milliseconds (`Int`).
-/

namespace CodingUsage

namespace DatabaseReader

/-- Byte access: `buffer[i]` with the out-of-range/negative-index behaviour of
the source's bitwise uses (reads as 0). -/
def byteAt (buf : List Nat) (i : Int) : Nat :=
  if 0 ≤ i then buf.getD i.toNat 0 else 0

/-- Loop body of `readVarintTuple`: `while (i < buffer.length && shift < 35)`,
or-ing `(byte & 0x7f) << shift` into a 32-bit accumulator and stopping at the
first byte without the continuation bit. The accumulator stays below `2 ^ 32`,
matching the Int32 truncation of the JavaScript `|=`. Returns the accumulated
bit pattern and the final index `i`. The structural fuel only bounds the
recursion; six units always outlast the `shift < 35` cap (shift grows by 7
from 0, so the guard admits at most five continuing iterations), so the fuel
case is never the one that stops the loop. -/
def readVarintAux (buf : List Nat) : Nat → Int → Nat → Nat → Nat × Int
  | 0, i, _, value => (value, i)
  | fuel + 1, i, shift, value =>
    if i < (buf.length : Int) ∧ shift < 35 then
      let byte := byteAt buf i
      let value' := value ||| ((byte &&& 0x7f) <<< shift % 2 ^ 32)
      if byte &&& 0x80 = 0 then (value', i + 1)
      else readVarintAux buf fuel (i + 1) (shift + 7) value'
    else (value, i)

/-- `readVarintTuple(buffer, offset)`: the decoded value (unsigned 32-bit bit
pattern) and the number of bytes consumed. -/
def readVarintTuple (buf : List Nat) (offset : Int) : Nat × Nat :=
  let r := readVarintAux buf 6 offset 0 0
  (r.1, (r.2 - offset).toNat)

/-- Reinterpret an unsigned 32-bit bit pattern as the signed Int32 value the
JavaScript number holds after `|=`. -/
def asInt32 (v : Nat) : Int :=
  if v < 2 ^ 31 then (v : Int) else (v : Int) - 2 ^ 32

/-- Exact value of an IEEE-754 binary32 bit pattern as a rational; `none` for
NaN and the infinities (which fail the parser's `>= 0 && <= 1` test exactly as
the rational `none` case does, and are never stored in a result). A subnormal
is `frac * 2 ^ (-149)`; a normal is `(2 ^ 23 + frac) * 2 ^ (expo - 150)`,
i.e. `(1 + frac / 2 ^ 23) * 2 ^ (expo - 127)`. -/
def decodeFloat32 (bits : Nat) : Option ℚ :=
  let sign : ℕ := bits / 2 ^ 31 % 2
  let expo : ℕ := bits / 2 ^ 23 % 2 ^ 8
  let frac : ℕ := bits % 2 ^ 23
  if expo = 255 then none
  else
    let mag : ℚ :=
      if expo = 0 then mkRat frac (2 ^ 149)
      else mkRat ((2 ^ 23 + frac) * 2 ^ expo) (2 ^ 150)
    some (if sign = 1 then -mag else mag)

/-- `buffer.readFloatLE(ptr)`: four little-endian bytes as a binary32 value.
The source call is guarded by `ptr + 4 <= end <= buffer.length` before use. -/
def readFloatLE (buf : List Nat) (p : Int) : Option ℚ :=
  decodeFloat32 (byteAt buf p + byteAt buf (p + 1) * 2 ^ 8 +
    byteAt buf (p + 2) * 2 ^ 16 + byteAt buf (p + 3) * 2 ^ 24)

/-- The acceptance test `remainingFraction >= 0 && remainingFraction <= 1`:
false for NaN and the infinities, exact on finite values. -/
def inUnitRange : Option ℚ → Bool
  | some q => decide (0 ≤ q) && decide (q ≤ 1)
  | none => false

/-- `skipField(buffer, ptr, wireType)`: advance past one encoded field.
Wire type 0 skips a varint, 1 skips 8 bytes, 2 skips a varint length plus that
many bytes (the length reinterpreted as signed Int32, as in the source's
number arithmetic), 5 skips 4 bytes; any other wire type yields the sentinel
-1. The source performs no bounds check in the four handled cases. -/
def skipField (buf : List Nat) (ptr : Int) (wireType : Nat) : Int :=
  match wireType with
  | 0 => ptr + (readVarintTuple buf ptr).2
  | 1 => ptr + 8
  | 2 =>
    let t := readVarintTuple buf ptr
    ptr + t.2 + asInt32 t.1
  | 5 => ptr + 4
  | _ => -1

/-- `parseResetTimeMessage(buffer, start, end)`: walk the nested message
looking for field 1 / wire type 0, a varint Unix-seconds timestamp, accepted
only inside the sanity window 2024-2030; other fields are skipped via
`skipField`, aborting on the -1 sentinel or a skip past `stop`. The source's
`while (ptr < end)` loop is driven by fuel; callers pass enough fuel for every
terminating run of the source loop. Returns the `Date` as epoch ms. -/
def parseResetTimeMessage (buf : List Nat) : Nat → Int → Int → Option Int
  | 0, _, _ => none
  | fuel + 1, ptr, stop =>
    if ptr < stop then
      let t := readVarintTuple buf ptr
      let ptr1 : Int := ptr + t.2
      let wireType := t.1 &&& 0x07
      let fieldNum := t.1 >>> 3
      if fieldNum = 1 ∧ wireType = 0 then
        let t2 := readVarintTuple buf ptr1
        let ptr2 : Int := ptr1 + t2.2
        let ts := asInt32 t2.1
        if 1704067200 < ts ∧ ts < 1900000000 then some (ts * 1000)
        else parseResetTimeMessage buf fuel ptr2 stop
      else
        let newPtr := skipField buf ptr1 wireType
        if newPtr = -1 ∨ newPtr > stop then none
        else parseResetTimeMessage buf fuel newPtr stop
    else none

/-- Result of `parseInnerQuotaMessage`. -/
structure InnerQuota where
  remainingFraction : Option ℚ
  resetTime : Option Int
  found : Bool
deriving DecidableEq

/-- `parseInnerQuotaMessage(buffer, start, end)`: generic field walk over the
quota sub-message. Field 1 / wire type 5 reads a little-endian float,
accepted only in [0, 1] — an out-of-range or non-finite value overwrites
`remainingFraction` with `undefined` and scanning continues. Field 2 / wire
type 2 recurses into `parseResetTimeMessage`. Everything else is skipped via
`skipField`. The three accumulators mirror the source's local mutable
variables; fuel drives the `while (ptr < end)` loop. -/
def parseInnerQuotaMessage (buf : List Nat) :
    Nat → Int → Int → Option ℚ → Option Int → Bool → InnerQuota
  | 0, _, _, rf, rt, fnd => ⟨rf, rt, fnd⟩
  | fuel + 1, ptr, stop, rf, rt, fnd =>
    if ptr < stop then
      let t := readVarintTuple buf ptr
      let ptr1 : Int := ptr + t.2
      let wireType := t.1 &&& 0x07
      let fieldNum := t.1 >>> 3
      if fieldNum = 1 ∧ wireType = 5 then
        if ptr1 + 4 ≤ stop then
          let f := readFloatLE buf ptr1
          if inUnitRange f then
            parseInnerQuotaMessage buf fuel (ptr1 + 4) stop f rt true
          else
            parseInnerQuotaMessage buf fuel (ptr1 + 4) stop none rt fnd
        else ⟨rf, rt, fnd⟩
      else if fieldNum = 2 ∧ wireType = 2 then
        let t2 := readVarintTuple buf ptr1
        let ptr2 : Int := ptr1 + t2.2
        let innerEnd : Int := ptr2 + asInt32 t2.1
        if innerEnd ≤ stop then
          match parseResetTimeMessage buf ((innerEnd - ptr2).toNat + 1) ptr2 innerEnd with
          | some rtv => parseInnerQuotaMessage buf fuel innerEnd stop rf (some rtv) true
          | none => parseInnerQuotaMessage buf fuel innerEnd stop rf rt fnd
        else ⟨rf, rt, fnd⟩
      else
        let newPtr := skipField buf ptr1 wireType
        if newPtr = -1 ∨ newPtr > stop then ⟨rf, rt, fnd⟩
        else parseInnerQuotaMessage buf fuel newPtr stop rf rt fnd
    else ⟨rf, rt, fnd⟩

/-- The `parsed.found` branch of the 0x7a scan: the default-omission
correction (`remainingFraction === undefined && resetTime !== undefined`
becomes `remainingFraction = 0`), then the map entry is written only when at
least one of the two values is defined. -/
def finishLabel (p : InnerQuota) : Option (Option ℚ × Option Int) :=
  let rf := if p.remainingFraction = none ∧ p.resetTime ≠ none then some (0 : ℚ)
            else p.remainingFraction
  if rf ≠ none ∨ p.resetTime ≠ none then some (rf, p.resetTime) else none

/-- The `while (searchPtr < searchLimit)` scan for a `0x7a` (field 15 / wire
type 2) tag after a model label. On a hit the sub-message length is read, the
bounded sub-message parsed, and — only when `parsed.found` — the label's scan
stops with `finishLabel`'s outcome; otherwise the byte scan continues. Fuel
equals the window width, one unit per `searchPtr++`. -/
def scanLoop (buf : List Nat) (bufferLen : Nat) :
    Nat → Int → Int → Option (Option ℚ × Option Int)
  | 0, _, _ => none
  | fuel + 1, searchPtr, searchLimit =>
    if searchPtr < searchLimit then
      if byteAt buf searchPtr = 0x7a then
        let t := readVarintTuple buf (searchPtr + 1)
        let msgStart : Int := searchPtr + 1 + t.2
        let msgEnd : Int := msgStart + asInt32 t.1
        if msgEnd ≤ (bufferLen : Int) then
          let parsed := parseInnerQuotaMessage buf ((msgEnd - msgStart).toNat + 1)
            msgStart msgEnd none none false
          if parsed.found then finishLabel parsed
          else scanLoop buf bufferLen fuel (searchPtr + 1) searchLimit
        else scanLoop buf bufferLen fuel (searchPtr + 1) searchLimit
      else scanLoop buf bufferLen fuel (searchPtr + 1) searchLimit
    else none

/-- Byte sequence of an ASCII label, as the source's binary-string view of the
buffer gives it (one char code per byte). -/
def strBytes (s : String) : List Nat :=
  s.toList.map Char.toNat

/-- Does `needle` occur in `hay` starting at index `i`? -/
def matchesAt (hay needle : List Nat) (i : Nat) : Bool :=
  (hay.drop i).take needle.length == needle

/-- `str.indexOf(needle)`: index of the first occurrence, if any. -/
def indexOfSub (hay needle : List Nat) : Option Nat :=
  (List.range (hay.length + 1)).find? (matchesAt hay needle)

/-- The fixed list of known Antigravity model labels, in source order. -/
def modelLabels : List String :=
  ["Claude Opus 4.5 (Thinking)", "Claude Sonnet 4.5 (Thinking)", "Claude Sonnet 4.5",
   "Gemini 3 Pro (High)", "Gemini 3 Pro (Low)", "Gemini 3 Flash", "GPT-OSS 120B (Medium)"]

/-- Per-label body of `parseQuotaFields`: find the label's first occurrence,
then scan a 500-byte window after it for the quota sub-message. -/
def parseQuotaForLabel (buf : List Nat) (label : List Nat) :
    Option (Option ℚ × Option Int) :=
  match indexOfSub buf label with
  | none => none
  | some idx =>
    let searchStart : Int := (idx : Int) + label.length
    let searchLimit : Int := min (buf.length : Int) (searchStart + 500)
    scanLoop buf buf.length (searchLimit - searchStart).toNat searchStart searchLimit

/-- `parseQuotaFields(buffer)`: the label-keyed quota map, as an association
list in `modelLabels` order. -/
def parseQuotaFields (buf : List Nat) : List (String × (Option ℚ × Option Int)) :=
  modelLabels.filterMap fun label =>
    (parseQuotaForLabel buf (strBytes label)).map fun q => (label, q)

/-- One entry of the source's `modelPatterns` table: a literal label and, for
the bare "Claude Sonnet 4.5" pattern, the `(?! \()` negative lookahead. -/
structure ModelPattern where
  label : String
  negLookahead : Option String
deriving DecidableEq

/-- The source's `modelPatterns` array, in order. -/
def modelPatterns : List ModelPattern :=
  [⟨"Claude Opus 4.5 (Thinking)", none⟩, ⟨"Claude Sonnet 4.5 (Thinking)", none⟩,
   ⟨"Claude Sonnet 4.5", some " ("⟩, ⟨"Gemini 3 Pro (High)", none⟩,
   ⟨"Gemini 3 Pro (Low)", none⟩, ⟨"Gemini 3 Flash", none⟩,
   ⟨"GPT-OSS 120B (Medium)", none⟩]

/-- `pattern.test(str)`: a literal pattern matches when the label occurs
anywhere; the lookahead pattern needs an occurrence not followed by " (". -/
def testPattern (hay : List Nat) (p : ModelPattern) : Bool :=
  match p.negLookahead with
  | none => (indexOfSub hay (strBytes p.label)).isSome
  | some nla =>
    (List.range (hay.length + 1)).any fun i =>
      matchesAt hay (strBytes p.label) i &&
        ! matchesAt hay (strBytes nla) (i + (strBytes p.label).length)

/-- `label.toLowerCase().replace(/[^a-z0-9]/g, '-')`. -/
def slug (label : String) : String :=
  String.mk (label.toList.map fun c =>
    let lc := c.toLower
    if ('a' ≤ lc ∧ lc ≤ 'z') ∨ ('0' ≤ lc ∧ lc ≤ '9') then lc else '-')

/-- `formatTimeUntilReset(ms)`. -/
def formatTimeUntilReset (ms : Int) : String :=
  if ms ≤ 0 then "Unknown"
  else
    let seconds := ms.toNat / 1000
    let minutes := seconds / 60
    let hours := minutes / 60
    let days := hours / 24
    if days > 0 then s!"{days}d{hours % 24}h"
    else if hours > 0 then s!"{hours}h {minutes % 60}m"
    else if minutes > 0 then s!"{minutes}m {seconds % 60}s"
    else s!"{seconds}s"

/-- One per-model record of the snapshot, with `Date`s as epoch ms. -/
structure ModelQuotaInfo where
  label : String
  modelId : String
  remainingFraction : Option ℚ
  remainingPercentage : Option ℚ
  isExhausted : Bool
  resetTime : Int
  timeUntilReset : Int
  timeUntilResetFormatted : String
deriving DecidableEq

/-- The record `extractModelQuotas` pushes for one detected label, from the
quota map entry (if any) and the wall clock `now`. `quota?.resetTime || new
Date()` falls back to the current time (a `Date` object is always truthy);
`remainingPercentage` is exact because a binary32 fraction times 100 needs at
most 31 significand bits, so the source's float64 multiply does not round. -/
def mkModelQuotaInfo (now : Int) (label : String)
    (quota : Option (Option ℚ × Option Int)) : ModelQuotaInfo :=
  let rf : Option ℚ := match quota with | some q => q.1 | none => none
  let rt : Option Int := match quota with | some q => q.2 | none => none
  { label := label
    modelId := slug label
    remainingFraction := rf
    remainingPercentage := rf.map (· * 100)
    isExhausted := rf == some 0
    resetTime := match rt with | some v => v | none => now
    timeUntilReset := match rt with | some v => v - now | none => 0
    timeUntilResetFormatted :=
      formatTimeUntilReset (match rt with | some v => v - now | none => 0) }

/-- `extractModelQuotas(buffer)`: detect labels with `modelPatterns` (a Set in
insertion order), build the quota map, and push one record per detected label
whether or not a quota was found for it. -/
def extractModelQuotas (now : Int) (buf : List Nat) : List ModelQuotaInfo :=
  let detected := (modelPatterns.filter (testPattern buf)).map (·.label)
  let quotaInfo := parseQuotaFields buf
  detected.map fun label => mkModelQuotaInfo now label (quotaInfo.lookup label)

/-- The source's `planPatterns`, in order. -/
def planPatterns : List String :=
  ["Google AI Pro", "Google AI Ultra", "g1-pro-tier", "g1-ultra-tier"]

/-- `extractPlanName(buffer)`: first matching plan pattern; a match containing
"Ultra" means the Ultra plan, anything else the Pro plan. -/
def extractPlanName (buf : List Nat) : Option String :=
  (planPatterns.find? fun p => (indexOfSub buf (strBytes p)).isSome).map fun m =>
    if (indexOfSub (strBytes m) (strBytes "Ultra")).isSome then "Google AI Ultra"
    else "Google AI Pro"

/-- A parsed snapshot: capture instant, per-model records, optional plan. -/
structure QuotaSnapshot where
  timestamp : Int
  models : List ModelQuotaInfo
  planName : Option String
deriving DecidableEq

/-- `parseUserStatusProto` after the base64 decode (which is external to the
parsing logic): timestamped snapshot of the extracted models and plan name. -/
def parseUserStatusProto (now : Int) (buffer : List Nat) : QuotaSnapshot :=
  { timestamp := now, models := extractModelQuotas now buffer
    planName := extractPlanName buffer }

end DatabaseReader

namespace Provider

/-!
Event-level model of `CursorProvider`'s refresh state machine. The runtime is
a single-threaded event loop: each timer callback, fetch completion, command
invocation and status-bar click runs to completion before the next, so the
machine is a step function over an explicit state. Timer handles are
modelled by "armed" flags (`setTimeout` arms, `clearTimeout` disarms, a fire
event has an effect only while armed). The retry `setTimeout` scheduled in
`fetchData`'s catch block discards its handle — the `retryTimer` field the
source declares and clears in `dispose()` is never assigned — so scheduled
retries are tracked in a list that `dispose` does not touch, and several can
be pending at once. Likewise several `fetchData` bodies can be in flight
(`refresh()` does not guard on an ongoing fetch); `inFlight` lists their
`retryCount` arguments in start order, and completion events resolve the
oldest. The counter fields record the observable actions the claims speak
about: `fetchData` invocations, `refresh()` calls, `updateSession` command
executions (open settings), visible error messages, and data updates. The
missing-credential early return and the API cache are orthogonal to the
claims and not modelled.
-/

/-- Mutable state of one `CursorProvider`, plus observation counters. -/
structure ProviderState where
  isRefreshing : Bool
  isManualRefresh : Bool
  clickCount : Nat
  clickTimerArmed : Bool
  fetchTimeoutArmed : Bool
  pendingRetries : List Nat
  inFlight : List Nat
  disposed : Bool
  fetchCalls : Nat
  refreshCalls : Nat
  settingsActions : Nat
  errorMessagesShown : Nat
  dataUpdates : Nat
deriving DecidableEq

/-- Freshly constructed provider, before `initialize()` starts a fetch. -/
def initial : ProviderState :=
  ⟨false, false, 0, false, false, [], [], false, 0, 0, 0, 0, 0⟩

/-- `clearClickTimer()`: cancel the debounce timer and zero the click count. -/
def clearClickTimer (s : ProviderState) : ProviderState :=
  { s with clickTimerArmed := false, clickCount := 0 }

/-- `clearFetchTimeout()`. -/
def clearFetchTimeout (s : ProviderState) : ProviderState :=
  { s with fetchTimeoutArmed := false }

/-- `resetRefreshState()`: drop the manual/refreshing flags, then
`clearFetchTimeout()`. -/
def resetRefreshState (s : ProviderState) : ProviderState :=
  clearFetchTimeout { s with isManualRefresh := false, isRefreshing := false }

/-- Synchronous prefix of `fetchData(retryCount)`: clear any previous fetch
timeout, arm a fresh one, and put the body in flight. -/
def startFetch (s : ProviderState) (retryCount : Nat) : ProviderState :=
  let s1 := clearFetchTimeout s
  { s1 with
    fetchTimeoutArmed := true
    inFlight := s1.inFlight ++ [retryCount]
    fetchCalls := s1.fetchCalls + 1 }

/-- `refresh()`: set the manual and refreshing flags (and the loading UI,
clear the API cache — not modelled), then `fetchData()`. -/
def refreshBody (s : ProviderState) : ProviderState :=
  startFetch
    { s with
      isManualRefresh := true
      isRefreshing := true
      refreshCalls := s.refreshCalls + 1 } 0

/-- `safeRefresh()`: reset a stuck refresh if one is flagged, then fetch. -/
def safeRefreshBody (s : ProviderState) : ProviderState :=
  startFetch (if s.isRefreshing then resetRefreshState s else s) 0

/-- `handleStatusBarClick()`: ignored while refreshing; otherwise count the
click, and either resolve a pending debounce as "open settings" or arm the
debounce timer. -/
def handleStatusBarClick (s : ProviderState) : ProviderState :=
  if s.isRefreshing then s
  else
    let s1 := { s with clickCount := s.clickCount + 1 }
    if s1.clickTimerArmed then
      { clearClickTimer s1 with settingsActions := s1.settingsActions + 1 }
    else { s1 with clickTimerArmed := true }

/-- The debounce timer callback: on exactly one registered click, `refresh()`;
then `clearClickTimer()`. -/
def clickTimerFire (s : ProviderState) : ProviderState :=
  if s.clickTimerArmed then
    clearClickTimer (if s.clickCount = 1 then refreshBody s else s)
  else s

/-- Successful completion of the oldest in-flight `fetchData` body: data
stored, `clearFetchTimeout()`, `resetRefreshState()`, status bar updated. -/
def fetchSuccess (s : ProviderState) : ProviderState :=
  match s.inFlight with
  | [] => s
  | _ :: rest =>
    resetRefreshState (clearFetchTimeout
      { s with inFlight := rest, dataUpdates := s.dataUpdates + 1 })

/-- The catch block of the oldest in-flight `fetchData(retryCount)` body:
`clearFetchTimeout()`, then either schedule `fetchData(retryCount + 1)` after
the fixed 1 s delay (when `retryCount < 3`) or settle back with
`resetRefreshState()` and a status-bar repaint, updating no data. -/
def fetchError (s : ProviderState) : ProviderState :=
  match s.inFlight with
  | [] => s
  | r :: rest =>
    let s1 := clearFetchTimeout { s with inFlight := rest }
    if r < 3 then { s1 with pendingRetries := s1.pendingRetries ++ [r + 1] }
    else resetRefreshState s1

/-- The fetch-timeout callback: force `resetRefreshState()`, repaint, and
show the error message only if `isManualRefresh` still holds — which the
reset just cleared, exactly as in the source. -/
def fetchTimeoutFire (s : ProviderState) : ProviderState :=
  if s.fetchTimeoutArmed then
    let s1 := resetRefreshState s
    if s1.isManualRefresh then { s1 with errorMessagesShown := s1.errorMessagesShown + 1 }
    else s1
  else s

/-- The oldest pending retry delay elapses: `fetchData(retryCount)` runs. -/
def retryFire (s : ProviderState) : ProviderState :=
  match s.pendingRetries with
  | [] => s
  | r :: rest => startFetch { s with pendingRetries := rest } r

/-- `dispose()`: clear `retryTimer` (always `null` — the retry `setTimeout`
handle is never stored there), `clearClickTimer()`, `clearFetchTimeout()`,
dispose the status-bar item. Pending retry delays survive. -/
def dispose (s : ProviderState) : ProviderState :=
  clearFetchTimeout (clearClickTimer { s with disposed := true })

/-- The events the editor runtime can deliver to one provider. -/
inductive Ev where
  | click
  | clickTimer
  | fetchOk
  | fetchErr
  | fetchTimeout
  | retryTimer
  | refreshCmd
  | safeRefreshCmd
  | disposeCmd
deriving DecidableEq

/-- One event handled to completion. -/
def step (s : ProviderState) : Ev → ProviderState
  | .click => handleStatusBarClick s
  | .clickTimer => clickTimerFire s
  | .fetchOk => fetchSuccess s
  | .fetchErr => fetchError s
  | .fetchTimeout => fetchTimeoutFire s
  | .retryTimer => retryFire s
  | .refreshCmd => refreshBody s
  | .safeRefreshCmd => safeRefreshBody s
  | .disposeCmd => dispose s

/-- A sequence of events handled in order. -/
def run (s : ProviderState) (es : List Ev) : ProviderState :=
  es.foldl step s

end Provider

/-! Helper lemmas shared by several claims. -/

namespace DatabaseReader

/-- A field walk that is already at (or past) the message end returns its
accumulators unchanged, whatever fuel remains. -/
theorem parseInnerQuotaMessage_stop (buf : List Nat) (fuel : Nat) (ptr stop : Int)
    (rf : Option ℚ) (rt : Option Int) (fnd : Bool) (h : ¬ptr < stop) :
    parseInnerQuotaMessage buf fuel ptr stop rf rt fnd = ⟨rf, rt, fnd⟩ := by
  cases fuel with
  | zero => rfl
  | succ n => simp [parseInnerQuotaMessage, h]

/-- A reset-time walk that is already at (or past) the message end finds
nothing, whatever fuel remains. -/
theorem parseResetTimeMessage_stop (buf : List Nat) (fuel : Nat) (ptr stop : Int)
    (h : ¬ptr < stop) :
    parseResetTimeMessage buf fuel ptr stop = none := by
  cases fuel with
  | zero => rfl
  | succ n => simp [parseResetTimeMessage, h]

/-- The varint loop never moves its cursor backwards and consumes at most
`(41 - shift) / 7` bytes (five from `shift = 0`): each continuing iteration
raises `shift` by 7 below the cap of 35. -/
theorem readVarintAux_bounds (buf : List Nat) :
    ∀ fuel shift i v, i ≤ (readVarintAux buf fuel i shift v).2 ∧
      (readVarintAux buf fuel i shift v).2 ≤ i + ((41 - shift : Nat) / 7 : Nat) := by
  intro fuel
  induction fuel with
  | zero => intro shift i v; rw [readVarintAux]; constructor <;> omega
  | succ n ih =>
    intro shift i v
    rw [readVarintAux]
    split
    · next hc =>
      dsimp only
      split
      · constructor
        · omega
        · have : 1 ≤ (41 - shift : Nat) / 7 := by omega
          omega
      · have h7 := ih (shift + 7) (i + 1)
          (v ||| (byteAt buf i &&& 127) <<< shift % 2 ^ 32)
        constructor
        · omega
        · have : (41 - (shift + 7) : Nat) / 7 + 1 ≤ (41 - shift : Nat) / 7 := by omega
          omega
    · constructor <;> omega

/-- With fuel and the guard both live, the loop consumes at least one byte. -/
theorem readVarintAux_progress (buf : List Nat) (fuel : Nat) (shift : Nat) (i : Int)
    (v : Nat) (hl : i < (buf.length : Int)) (hs : shift < 35) :
    i + 1 ≤ (readVarintAux buf (fuel + 1) i shift v).2 := by
  rw [readVarintAux]
  rw [if_pos ⟨hl, hs⟩]
  dsimp only
  split
  · omega
  · have h7 := (readVarintAux_bounds buf fuel (shift + 7) (i + 1)
      (v ||| (byteAt buf i &&& 127) <<< shift % 2 ^ 32)).1
    omega

/-- `readVarintTuple` consumes between one and five bytes when pointed inside
the buffer. -/
theorem readVarintTuple_bytes (buf : List Nat) (ptr : Int) (h0 : 0 ≤ ptr)
    (hl : ptr < (buf.length : Int)) :
    1 ≤ (readVarintTuple buf ptr).2 ∧ (readVarintTuple buf ptr).2 ≤ 5 := by
  have hb := readVarintAux_bounds buf 6 0 ptr 0
  have hp : ptr + 1 ≤ (readVarintAux buf 6 ptr 0 0).2 :=
    readVarintAux_progress buf 5 0 ptr 0 hl (by omega)
  rw [readVarintTuple]
  omega

/-- Bytes below 128 have no continuation bit. -/
theorem land128_eq_zero {x : Nat} (h : x < 128) : x &&& 128 = 0 := by
  have h2 : x < 2 ^ 7 := h
  have := Nat.and_two_pow x 7
  rw [Nat.testBit_lt_two_pow h2] at this
  simpa using this

/-- Bytes below 128 are their own low seven bits. -/
theorem land127_eq_self {x : Nat} (h : x < 128) : x &&& 127 = x := by
  have := Nat.and_pow_two_sub_one_of_lt_two_pow (n := 7) h
  simpa using this

/-- A single byte without the continuation bit decodes to itself in one
byte. -/
theorem readVarintTuple_single (buf : List Nat) (i : Int)
    (hl : i < (buf.length : Int)) (hb : byteAt buf i < 128) :
    readVarintTuple buf i = (byteAt buf i, 1) := by
  have e : readVarintAux buf 6 i 0 0 = (byteAt buf i, i + 1) := by
    show readVarintAux buf (5 + 1) i 0 0 = _
    rw [readVarintAux]
    rw [if_pos ⟨hl, by omega⟩]
    dsimp only
    rw [if_pos (land128_eq_zero hb)]
    rw [land127_eq_self hb, Nat.shiftLeft_zero,
      Nat.mod_eq_of_lt (lt_of_lt_of_le hb (by norm_num)), Nat.zero_or]
  simp only [readVarintTuple, e]
  norm_num

/-- A quota sub-message consisting of the field-1/wire-type-5 tag byte `0x0d`
followed by four float bytes parses to that float when it lies in the unit
range and to nothing otherwise, wherever the message sits in the buffer. -/
theorem parseInner_single_float (buf : List Nat) (start : Int) (fuel : Nat)
    (hl : start < (buf.length : Int)) (htag : byteAt buf start = 13) :
    parseInnerQuotaMessage buf (fuel + 2) start (start + 5) none none false =
      (if inUnitRange (readFloatLE buf (start + 1)) then
        InnerQuota.mk (readFloatLE buf (start + 1)) none true
      else ⟨none, none, false⟩) := by
  have hv : readVarintTuple buf start = (13, 1) := by
    rw [readVarintTuple_single buf start hl (by rw [htag]; norm_num), htag]
  have hv1 : (readVarintTuple buf start).1 = 13 := by rw [hv]
  have hv2 : ((readVarintTuple buf start).2 : Int) = 1 := by rw [hv]; rfl
  show parseInnerQuotaMessage buf ((fuel + 1) + 1) start (start + 5) none none false = _
  rw [parseInnerQuotaMessage]
  rw [if_pos (show start < start + 5 by omega)]
  dsimp only
  simp only [hv1, hv2]
  rw [if_pos (show (13 : Nat) >>> 3 = 1 ∧ (13 : Nat) &&& 7 = 5 by decide)]
  rw [if_pos (show start + 1 + 4 ≤ start + 5 by omega)]
  rw [parseInnerQuotaMessage_stop buf (fuel + 1) (start + 1 + 4) (start + 5)
    (readFloatLE buf (start + 1)) none true (by omega)]
  rw [parseInnerQuotaMessage_stop buf (fuel + 1) (start + 1 + 4) (start + 5)
    none none false (by omega)]

/-- A scan hit whose entry carries a reset time always carries a fraction:
the default-omission correction has filled in `some 0` whenever the parse
left the fraction absent. -/
theorem finishLabel_rt_imp_rf (p : InnerQuota) (rf : Option ℚ) (rt : Option Int)
    (h : finishLabel p = some (rf, rt)) (hrt : rt.isSome) : rf.isSome := by
  cases hf : p.remainingFraction <;> cases hr : p.resetTime <;>
      simp_all [finishLabel] <;>
    simp [← h.1]

/-- The invariant of `finishLabel` propagated through the 0x7a scan. -/
theorem scanLoop_rt_imp_rf (buf : List Nat) (blen : Nat) :
    ∀ (fuel : Nat) (sp lim : Int) (rf : Option ℚ) (rt : Option Int),
      scanLoop buf blen fuel sp lim = some (rf, rt) → rt.isSome → rf.isSome := by
  intro fuel
  induction fuel with
  | zero => intro sp lim rf rt h; simp [scanLoop] at h
  | succ n ih =>
    intro sp lim rf rt h hrt
    rw [scanLoop] at h
    dsimp only at h
    split at h
    · split at h
      · split at h
        · split at h
          · exact finishLabel_rt_imp_rf _ _ _ h hrt
          · exact ih _ _ _ _ h hrt
        · exact ih _ _ _ _ h hrt
      · exact ih _ _ _ _ h hrt
    · simp at h

/-- A successful lookup in the label-keyed association list built by
`filterMap` comes from the per-label function itself. -/
theorem lookup_filterMap_eq {β : Type} (f : String → Option β) (ls : List String)
    (a : String) (b : β)
    (h : (ls.filterMap fun l => (f l).map fun q => (l, q)).lookup a = some b) :
    f a = some b := by
  induction ls with
  | nil => simp at h
  | cons l ls ih =>
    rw [List.filterMap_cons] at h
    cases hf : f l with
    | none => rw [hf] at h; exact ih h
    | some q =>
      rw [hf] at h
      by_cases hal : a = l
      · subst hal
        simp [List.lookup] at h
        subst h
        exact hf
      · simp only [Option.map, List.lookup] at h
        rw [show (a == l) = false by simpa using hal] at h
        exact ih h

end DatabaseReader

/-! Claim theorems. -/

open DatabaseReader Provider

/-- Claim C9, counterexample: skipping a fixed 8-byte field at offset 0 of the
empty buffer runs past the buffer end, yet `skipField` returns the offset 8
rather than the NOT_FOUND sentinel — the source performs no bounds check, so
"a skip that would run past the buffer end yields NOT_FOUND" is false. -/
theorem c9_skip_counterexample :
    skipField [] 0 1 = 8 ∧ skipField [] 0 1 ≠ -1 := by
  constructor <;> decide

/-- Claim C9, amended: the field skipper advances past exactly one encoded
field for wire types 0 (the varint's byte count, between 1 and 5 when the
cursor is inside the buffer), 1 (8 bytes), 2 (a varint length — reinterpreted
as signed Int32 — plus that many bytes) and 5 (4 bytes); only an unrecognised
wire type yields the NOT_FOUND sentinel -1, a value distinct from every valid
offset. No bounds check is made: an overrunning skip returns the advanced
offset and the callers abort on `newPtr > end` instead. -/
theorem c9_skip_field_amended :
    (∀ (buf : List Nat) (ptr : Int) (w : Nat), w ≠ 0 → w ≠ 1 → w ≠ 2 → w ≠ 5 →
      skipField buf ptr w = -1) ∧
    (∀ (buf : List Nat) (ptr : Int),
      skipField buf ptr 1 = ptr + 8 ∧ skipField buf ptr 5 = ptr + 4) ∧
    (∀ (buf : List Nat) (ptr : Int) (v n : Nat), readVarintTuple buf ptr = (v, n) →
      skipField buf ptr 0 = ptr + n ∧ skipField buf ptr 2 = ptr + n + asInt32 v) ∧
    (∀ (buf : List Nat) (ptr : Int), 0 ≤ ptr → ptr < (buf.length : Int) →
      ptr < skipField buf ptr 0 ∧ skipField buf ptr 0 ≤ ptr + 5) := by
  refine ⟨?_, ?_, ?_, ?_⟩
  · intro buf ptr w h0 h1 h2 h5
    match w with
    | 0 => exact absurd rfl h0
    | 1 => exact absurd rfl h1
    | 2 => exact absurd rfl h2
    | 5 => exact absurd rfl h5
    | 3 => rfl
    | 4 => rfl
    | n + 6 => rfl
  · intro buf ptr
    exact ⟨rfl, rfl⟩
  · intro buf ptr v n h
    constructor
    · show ptr + ((readVarintTuple buf ptr).2 : Int) = ptr + n
      rw [h]
    · show ptr + ((readVarintTuple buf ptr).2 : Int) + asInt32 (readVarintTuple buf ptr).1
        = ptr + n + asInt32 v
      rw [h]
  · intro buf ptr h0 hl
    have hb := readVarintTuple_bytes buf ptr h0 hl
    show ptr < ptr + ((readVarintTuple buf ptr).2 : Int) ∧
      ptr + ((readVarintTuple buf ptr).2 : Int) ≤ ptr + 5
    omega

/-- Claim C9, witness: the amended theorem applied at concrete inputs — wire
type 3 yields -1, a two-byte varint `[0x80, 0x01]` makes wire type 0 advance
by 2 and keeps the advance within (0, 5]. -/
theorem c9_skip_field_witness :
    skipField [128, 1] 0 3 = -1 ∧ skipField [128, 1] 0 0 = 2 ∧
    (0 : Int) < skipField [128, 1] 0 0 ∧ skipField [128, 1] 0 0 ≤ 5 := by
  refine ⟨c9_skip_field_amended.1 [128, 1] 0 3 (by decide) (by decide) (by decide) (by decide),
    ?_, ?_, ?_⟩
  · have h := (c9_skip_field_amended.2.2.1 [128, 1] 0 128 2 (by decide)).1
    simpa using h
  · exact (c9_skip_field_amended.2.2.2 [128, 1] 0 (by decide) (by decide)).1
  · have h := (c9_skip_field_amended.2.2.2 [128, 1] 0 (by decide) (by decide)).2
    simpa using h

/-- Claim C1, counterexample: a blob consisting of nothing but the bytes of
"Gemini 3 Flash" — so the label is found but no `0x7a` quota tag exists in the
lookahead window — yields a models sequence that is not empty: the source
pushes a placeholder record for every detected label. -/
theorem c1_label_only_counterexample :
    extractModelQuotas 0 (strBytes "Gemini 3 Flash") ≠ [] := by
  decide

/-- Claim C1, amended: a blob containing only the label "Gemini 3 Flash" and
no matching `0x7a` tag yields a snapshot whose models sequence holds exactly
one placeholder entry for that model — remainingFraction and
remainingPercentage undefined, isExhausted false, resetTime defaulted to the
wall clock — rather than omitting the model. -/
theorem c1_label_only_placeholder (now : Int) :
    extractModelQuotas now (strBytes "Gemini 3 Flash") =
      [{ label := "Gemini 3 Flash", modelId := "gemini-3-flash",
         remainingFraction := none, remainingPercentage := none,
         isExhausted := false, resetTime := now, timeUntilReset := 0,
         timeUntilResetFormatted := "Unknown" }] := by
  rfl

set_option maxRecDepth 100000 in
/-- Claim C2: a field-1/wire-type-5 little-endian float `f` inside a quota
sub-message becomes `remainingFraction = f` exactly when `0 ≤ f ≤ 1`; any
float outside the unit range (or non-finite) leaves `remainingFraction`
undefined — discarded, never clamped. Stated for the single-float sub-message
at an arbitrary position of an arbitrary buffer, plus two end-to-end runs:
the bytes of 0.5 yield an entry with `remainingFraction = 1/2` for the
anchoring label, and the bytes of 2.0 yield `remainingFraction = none`. -/
theorem c2_fraction_unit_range :
    (∀ (buf : List Nat) (start : Int) (fuel : Nat), start < (buf.length : Int) →
      byteAt buf start = 13 →
      ((∀ v : ℚ, readFloatLE buf (start + 1) = some v →
          ((0 ≤ v ∧ v ≤ 1) →
            (parseInnerQuotaMessage buf (fuel + 2) start (start + 5) none none
                false).remainingFraction = some v) ∧
          (¬(0 ≤ v ∧ v ≤ 1) →
            (parseInnerQuotaMessage buf (fuel + 2) start (start + 5) none none
                false).remainingFraction = none)) ∧
        (readFloatLE buf (start + 1) = none →
          (parseInnerQuotaMessage buf (fuel + 2) start (start + 5) none none
              false).remainingFraction = none))) ∧
    ((extractModelQuotas 0 (strBytes "Gemini 3 Flash" ++ [122, 5, 13, 0, 0, 0, 63])).map
      (fun m => (m.label, m.remainingFraction)) =
        [("Gemini 3 Flash", some (mkRat 1 2))]) ∧
    ((extractModelQuotas 0 (strBytes "Gemini 3 Flash" ++ [122, 5, 13, 0, 0, 0, 64])).map
      (fun m => (m.label, m.remainingFraction)) = [("Gemini 3 Flash", none)]) := by
  refine ⟨?_, ?_, ?_⟩
  · intro buf start fuel hl htag
    have key := parseInner_single_float buf start fuel hl htag
    constructor
    · intro v hf
      constructor
      · intro hr
        have hc : inUnitRange (readFloatLE buf (start + 1)) = true := by
          rw [hf]; simp [inUnitRange, hr.1, hr.2]
        rw [key, if_pos hc, hf]
      · intro hr
        have hc : inUnitRange (readFloatLE buf (start + 1)) = false := by
          rw [hf]; simp only [inUnitRange]
          simp only [Bool.and_eq_false_iff, decide_eq_false_iff_not]
          tauto
        rw [key]
        simp [hc]
    · intro hf
      rw [key]
      simp [hf, inUnitRange]
  · decide
  · decide

set_option maxRecDepth 100000 in
/-- Claim C2, witness: the unit-range acceptance applied at the concrete
five-byte messages for 0.5 (accepted) and 2.0 (discarded). -/
theorem c2_fraction_unit_range_witness :
    (parseInnerQuotaMessage [13, 0, 0, 0, 63] 2 0 5 none none false).remainingFraction
      = some (mkRat 1 2) ∧
    (parseInnerQuotaMessage [13, 0, 0, 0, 64] 2 0 5 none none false).remainingFraction
      = none := by
  constructor
  · exact ((c2_fraction_unit_range.1 [13, 0, 0, 0, 63] 0 0 (by decide) (by decide)).1
      (mkRat 1 2) (by decide)).1 ⟨by decide, by decide⟩
  · exact ((c2_fraction_unit_range.1 [13, 0, 0, 0, 64] 0 0 (by decide) (by decide)).1
      2 (by decide)).2 (fun h => absurd h.2 (by decide))

set_option maxRecDepth 400000 in
/-- Claim C3, counterexample: with the out-of-window timestamp `t = 5` in the
reset-time sub-message, the snapshot entry's `resetTime` is not undefined — it
is the wall-clock `new Date()` fallback, as running the extraction at two
different clock values shows. -/
theorem c3_reset_default_counterexample :
    (extractModelQuotas 123456 (strBytes "Gemini 3 Flash" ++ [122, 4, 18, 2, 8, 5])).map
      (fun m => m.resetTime) = [123456] ∧
    (extractModelQuotas 987654 (strBytes "Gemini 3 Flash" ++ [122, 4, 18, 2, 8, 5])).map
      (fun m => m.resetTime) = [987654] := by
  constructor <;> decide

set_option maxRecDepth 400000 in
/-- Claim C3, amended: a nested field-1/wire-type-0 varint timestamp `t` with
`1704067200 < t < 1900000000` makes the reset-time walk return
`new Date(t * 1000)` and the snapshot entry's `resetTime` equal `t * 1000`
(end-to-end run with `t = 1750000000`); for `t` outside the window the walk
returns nothing and the quota map holds no entry — but the snapshot record's
`resetTime` is then the wall-clock `new Date()` default rather than being
undefined. -/
theorem c3_reset_time_window :
    (∀ (buf : List Nat) (start : Int) (fuel : Nat) (v n : Nat),
      start < (buf.length : Int) → byteAt buf start = 8 →
      readVarintTuple buf (start + 1) = (v, n) →
      parseResetTimeMessage buf (fuel + 2) start (start + 1 + n) =
        (if 1704067200 < asInt32 v ∧ asInt32 v < 1900000000
         then some (asInt32 v * 1000) else none)) ∧
    ((extractModelQuotas 0 (strBytes "Gemini 3 Flash" ++
        [122, 8, 18, 6, 8, 128, 195, 187, 194, 6])).map
      (fun m => (m.label, m.resetTime)) = [("Gemini 3 Flash", 1750000000000)]) ∧
    ((parseQuotaFields (strBytes "Gemini 3 Flash" ++ [122, 4, 18, 2, 8, 5])).lookup
        "Gemini 3 Flash" = none) ∧
    (∀ now : Int, (extractModelQuotas now (strBytes "Gemini 3 Flash" ++
        [122, 4, 18, 2, 8, 5])).map (fun m => m.resetTime) = [now]) := by
  refine ⟨?_, by decide, by decide, fun now => rfl⟩
  intro buf start fuel v n hl htag hv
  have ht : readVarintTuple buf start = (8, 1) := by
    rw [readVarintTuple_single buf start hl (by rw [htag]; norm_num), htag]
  have ht1 : (readVarintTuple buf start).1 = 8 := by rw [ht]
  have ht2 : ((readVarintTuple buf start).2 : Int) = 1 := by rw [ht]; rfl
  show parseResetTimeMessage buf ((fuel + 1) + 1) start (start + 1 + n) = _
  rw [parseResetTimeMessage]
  rw [if_pos (show start < start + 1 + (n : Int) by omega)]
  dsimp only
  simp only [ht1, ht2, hv]
  rw [if_pos (show (8 : Nat) >>> 3 = 1 ∧ (8 : Nat) &&& 7 = 0 by decide)]
  split
  · rfl
  · exact parseResetTimeMessage_stop buf (fuel + 1) (start + 1 + n) (start + 1 + n)
      (by omega)

/-- Claim C3, witness: the reset-time window property applied at the concrete
six-byte message carrying the in-window timestamp 1750000000. -/
theorem c3_reset_time_window_witness :
    parseResetTimeMessage [8, 128, 195, 187, 194, 6] 2 0 6 = some 1750000000000 := by
  have h := c3_reset_time_window.1 [8, 128, 195, 187, 194, 6] 0 0 1750000000 5
    (by decide) (by decide) (by decide)
  exact h.trans (by decide)

set_option maxRecDepth 400000 in
/-- Claim C4: a model whose quota sub-message yielded a reset time but no
fraction gets `remainingFraction = some 0` from the default-omission
correction — stated for `finishLabel` (the branch that writes the quota map),
propagated to the whole map (every entry carrying a reset time carries a
fraction), and shown end-to-end (a reset-time-only buffer produces
`remainingFraction = some 0` and `isExhausted = true`); and a record is
exhausted exactly when its `remainingFraction` equals 0. -/
theorem c4_default_omission_correction :
    (∀ (p : InnerQuota) (rtv : Int), p.remainingFraction = none →
      p.resetTime = some rtv → finishLabel p = some (some 0, some rtv)) ∧
    (∀ (buf : List Nat) (label : String) (rf : Option ℚ) (rt : Option Int),
      (parseQuotaFields buf).lookup label = some (rf, rt) → rt.isSome → rf.isSome) ∧
    (∀ (now : Int) (label : String) (q : Option (Option ℚ × Option Int)),
      (mkModelQuotaInfo now label q).isExhausted = true ↔
        (mkModelQuotaInfo now label q).remainingFraction = some 0) ∧
    ((extractModelQuotas 0 (strBytes "Gemini 3 Flash" ++
        [122, 8, 18, 6, 8, 128, 240, 157, 199, 6])).map
      (fun m => (m.remainingFraction, m.isExhausted, m.resetTime)) =
        [(some 0, true, 1760000000000)]) := by
  refine ⟨?_, ?_, ?_, by decide⟩
  · intro p rtv h1 h2
    simp [finishLabel, h1, h2]
  · intro buf label rf rt h hrt
    have h2 : parseQuotaForLabel buf (strBytes label) = some (rf, rt) :=
      lookup_filterMap_eq (fun l => parseQuotaForLabel buf (strBytes l))
        modelLabels label (rf, rt) h
    rw [parseQuotaForLabel] at h2
    cases hidx : indexOfSub buf (strBytes label) with
    | none => rw [hidx] at h2; exact absurd h2 (by simp)
    | some idx =>
      rw [hidx] at h2
      exact scanLoop_rt_imp_rf buf buf.length _ _ _ rf rt h2 hrt
  · intro now label q
    cases q with
    | none => simp [mkModelQuotaInfo]
    | some p => simp [mkModelQuotaInfo]

/-- Claim C4, witness: the three quantified clauses applied at concrete
inputs — a fraction-free parse with reset time 1000 s, the end-to-end quota
map of the reset-time-only buffer, and an exhausted record. -/
theorem c4_default_omission_correction_witness :
    finishLabel ⟨none, some 1000000, true⟩ = some (some 0, some 1000000) ∧
    (Option.isSome (some (0 : ℚ)) = true) ∧
    (mkModelQuotaInfo 0 "Gemini 3 Flash" (some (some 0, some 1760000000000))).isExhausted
      = true := by
  refine ⟨c4_default_omission_correction.1 ⟨none, some 1000000, true⟩ 1000000 rfl rfl,
    ?_, ?_⟩
  · exact c4_default_omission_correction.2.1
      (strBytes "Gemini 3 Flash" ++ [122, 8, 18, 6, 8, 128, 240, 157, 199, 6])
      "Gemini 3 Flash" (some 0) (some 1760000000000)
      (by decide) (by decide)
  · exact (c4_default_omission_correction.2.2.1 0 "Gemini 3 Flash"
      (some (some 0, some 1760000000000))).2 (by decide)

/-- Claim C5, counterexample: after exactly three consecutive fetch failures
of a manual refresh the machine has not returned to Idle — it is still
refreshing with a fourth fetch attempt scheduled, and that attempt fires. -/
theorem c5_three_failures_counterexample :
    (run initial [.refreshCmd, .fetchErr, .retryTimer, .fetchErr, .retryTimer,
      .fetchErr]).isRefreshing = true ∧
    (run initial [.refreshCmd, .fetchErr, .retryTimer, .fetchErr, .retryTimer,
      .fetchErr]).pendingRetries = [3] ∧
    (run initial [.refreshCmd, .fetchErr, .retryTimer, .fetchErr, .retryTimer,
      .fetchErr, .retryTimer]).fetchCalls = 4 := by
  refine ⟨?_, ?_, ?_⟩ <;> decide

/-- Claim C5, amended: a failed fetch schedules a delayed re-invocation while
its `retryCount` is below 3, giving up to three retries after the initial
attempt (four attempts in all); after exactly four consecutive fetch failures
the machine settles back to Idle with no data updated and nothing further
scheduled, and a failure whose `retryCount` has reached 3 schedules no retry
(a fourth automatic retry never fires). -/
theorem c5_retry_policy_amended :
    ((run initial [.refreshCmd, .fetchErr, .retryTimer, .fetchErr, .retryTimer,
        .fetchErr, .retryTimer, .fetchErr]).isRefreshing = false ∧
     (run initial [.refreshCmd, .fetchErr, .retryTimer, .fetchErr, .retryTimer,
        .fetchErr, .retryTimer, .fetchErr]).pendingRetries = [] ∧
     (run initial [.refreshCmd, .fetchErr, .retryTimer, .fetchErr, .retryTimer,
        .fetchErr, .retryTimer, .fetchErr]).inFlight = [] ∧
     (run initial [.refreshCmd, .fetchErr, .retryTimer, .fetchErr, .retryTimer,
        .fetchErr, .retryTimer, .fetchErr]).fetchCalls = 4 ∧
     (run initial [.refreshCmd, .fetchErr, .retryTimer, .fetchErr, .retryTimer,
        .fetchErr, .retryTimer, .fetchErr]).dataUpdates = 0) ∧
    (∀ (s : ProviderState) (r : Nat) (rest : List Nat), s.inFlight = r :: rest →
      3 ≤ r → (step s .fetchErr).pendingRetries = s.pendingRetries) := by
  constructor
  · refine ⟨?_, ?_, ?_, ?_, ?_⟩ <;> decide
  · intro s r rest h hr
    simp only [step, fetchError, h]
    rw [if_neg (by omega)]
    rfl

/-- Claim C5, witness: the no-further-retry clause applied to a concrete state
whose in-flight fetch carries `retryCount = 3`. -/
theorem c5_retry_policy_witness :
    (step { initial with inFlight := [3] } .fetchErr).pendingRetries =
      ({ initial with inFlight := [3] } : ProviderState).pendingRetries := by
  exact c5_retry_policy_amended.2 { initial with inFlight := [3] } 3 [] rfl (by omega)

/-- Claim C6: the timeout timer is armed when a user-initiated fetch cycle
starts and its firing force-resets the machine to Idle — but the visible
error message is never surfaced, even for the user-initiated refresh, because
`resetRefreshState()` clears `isManualRefresh` before the callback tests it.
This evaluates the code at the claim's failing input. -/
theorem c6_timeout_error_never_surfaced :
    (run initial [.refreshCmd]).fetchTimeoutArmed = true ∧
    (run initial [.refreshCmd]).isManualRefresh = true ∧
    (run initial [.refreshCmd, .fetchTimeout]).isRefreshing = false ∧
    (run initial [.refreshCmd, .fetchTimeout]).isManualRefresh = false ∧
    (run initial [.refreshCmd, .fetchTimeout]).errorMessagesShown = 0 := by
  refine ⟨?_, ?_, ?_, ?_, ?_⟩ <;> decide

/-- Claim C7: from any quiescent state (not refreshing, no debounce pending),
one click followed by the debounce timer firing performs exactly one refresh
and no open-settings action, while two clicks inside the debounce window
cancel the timer and perform exactly one open-settings action and no
refresh. -/
theorem c7_click_debounce (s : ProviderState) (hr : s.isRefreshing = false)
    (ht : s.clickTimerArmed = false) (hc : s.clickCount = 0) :
    ((run s [.click, .clickTimer]).refreshCalls = s.refreshCalls + 1 ∧
     (run s [.click, .clickTimer]).settingsActions = s.settingsActions ∧
     (run s [.click, .clickTimer]).clickTimerArmed = false) ∧
    ((run s [.click, .click]).settingsActions = s.settingsActions + 1 ∧
     (run s [.click, .click]).refreshCalls = s.refreshCalls ∧
     (run s [.click, .click]).clickTimerArmed = false) := by
  simp [run, step, handleStatusBarClick, clickTimerFire, refreshBody, startFetch,
    clearClickTimer, clearFetchTimeout, hr, ht, hc]

/-- Claim C7, witness: the debounce contract applied to the freshly
constructed provider. -/
theorem c7_click_debounce_witness :
    (run initial [.click, .clickTimer]).refreshCalls = initial.refreshCalls + 1 ∧
    (run initial [.click, .click]).settingsActions = initial.settingsActions + 1 := by
  exact ⟨(c7_click_debounce initial rfl rfl rfl).1.1,
    (c7_click_debounce initial rfl rfl rfl).2.1⟩

/-- Claim C8, counterexample: with a manual refresh in flight (the Loading
state), a second refresh request through the `refresh()` entry point is not a
no-op — the fetch-invocation count reaches 2 before the first fetch has
completed or timed out. -/
theorem c8_second_refresh_counterexample :
    (run initial [.refreshCmd]).isRefreshing = true ∧
    (run initial [.refreshCmd]).inFlight = [0] ∧
    (run initial [.refreshCmd, .refreshCmd]).fetchCalls = 2 := by
  refine ⟨?_, ?_, ?_⟩ <;> decide

/-- Claim C8, amended: only the status-bar click entry point ignores refresh
requests while a fetch cycle is in flight (a strict no-op on the provider
state); the `refresh()` and `safeRefresh()` entry points do not guard on
Loading and start a second concurrent fetch cycle, raising the
fetch-invocation count to 2 before the first fetch completes. -/
theorem c8_single_flight_amended :
    (∀ s : ProviderState, s.isRefreshing = true → step s .click = s) ∧
    (run initial [.refreshCmd, .refreshCmd]).fetchCalls = 2 ∧
    (run initial [.refreshCmd, .refreshCmd]).inFlight = [0, 0] ∧
    (run initial [.refreshCmd, .safeRefreshCmd]).fetchCalls = 2 := by
  refine ⟨?_, ?_, ?_, ?_⟩
  · intro s h
    simp [step, handleStatusBarClick, h]
  · decide
  · decide
  · decide

/-- Claim C8, witness: the click no-op clause applied to the state with a
manual refresh in flight. -/
theorem c8_single_flight_witness :
    step (run initial [.refreshCmd]) .click = run initial [.refreshCmd] := by
  exact c8_single_flight_amended.1 (run initial [.refreshCmd]) (by decide)

/-- Claim C10: `dispose()` is idempotent and clears the click-debounce and
fetch-timeout timers, but the pending retry delay scheduled by a failed fetch
survives it — the source never stores the retry `setTimeout` handle in the
`retryTimer` field that `dispose()` clears — so after disposal the retry
callback still fires, invokes `fetchData` on the disposed provider and even
arms a fresh fetch-timeout timer. This evaluates the code at the claim's
failing input. -/
theorem c10_dispose_leaves_retry_pending :
    (step (step (run initial [.refreshCmd, .fetchErr]) .disposeCmd) .disposeCmd =
      step (run initial [.refreshCmd, .fetchErr]) .disposeCmd) ∧
    (run initial [.refreshCmd, .fetchErr, .disposeCmd]).clickTimerArmed = false ∧
    (run initial [.refreshCmd, .fetchErr, .disposeCmd]).fetchTimeoutArmed = false ∧
    (run initial [.refreshCmd, .fetchErr, .disposeCmd]).disposed = true ∧
    (run initial [.refreshCmd, .fetchErr, .disposeCmd]).pendingRetries = [1] ∧
    (run initial [.refreshCmd, .fetchErr, .disposeCmd, .retryTimer]).fetchCalls = 2 ∧
    (run initial [.refreshCmd, .fetchErr, .disposeCmd, .retryTimer]).fetchTimeoutArmed
      = true := by
  refine ⟨?_, ?_, ?_, ?_, ?_, ?_, ?_⟩ <;> decide

end CodingUsage
